import Mathlib

/-!
Shallow embedding of the smart_dashboard sales ingestion and analysis code
(`app/routers/sales.py`, `app/services/sales_analysis.py`,
`src/tests/test_casts.py`).

CSV cell values are modelled as `Option String`: `csv.DictReader` yields the
string contents of a cell, or Python `None` for columns absent from a row
(the reader's `restval`).  Monetary amounts use `ℚ`, i.e. exact arithmetic;
the Python code uses binary floating point, and the claims under scrutiny are
stated for exact arithmetic.  Digit and whitespace handling is modelled for
the ASCII range.  String primitives are implemented over `List Char` so that
every definition reduces inside the kernel.
-/

namespace SmartDashboard

/-- Truthiness of a Python `str | None` value: `None` and `""` are falsy,
every other string is truthy. -/
def truthy : Option String → Bool
  | none => false
  | some s => !(s == "")

/-- Model of Python `str.strip()`: drop whitespace from both ends. -/
def trimChars (l : List Char) : List Char :=
  ((l.dropWhile Char.isWhitespace).reverse.dropWhile Char.isWhitespace).reverse

/-- `str.strip()` at the string level. -/
def pyStrip (s : String) : String := ⟨trimChars s.data⟩

/-- Split a character list on a separator character; `n` separators yield
`n + 1` groups (as Python `str.split(sep)` does). -/
def splitChar (c : Char) : List Char → List (List Char)
  | [] => [[]]
  | x :: xs =>
    match splitChar c xs with
    | [] => [[x]]
    | g :: gs => if x = c then [] :: g :: gs else (x :: g) :: gs

/-- Model of Python `str.endswith(suffix)`. -/
def pyEndsWith (s suf : String) : Bool := suf.data.isSuffixOf s.data

/-- Tail of a Python numeric digit group: decimal digits with single
underscores strictly between digits (PEP 515), as accepted by `int()` and
`float()`. -/
def groupRest : List Char → Bool
  | [] => true
  | c :: rest =>
    if c = '_' then
      match rest with
      | [] => false
      | d :: rest2 => d.isDigit && groupRest rest2
    else
      c.isDigit && groupRest rest

/-- A nonempty digit group (with PEP-515 underscores). -/
def digitGroup : List Char → Bool
  | [] => false
  | c :: rest => c.isDigit && groupRest rest

/-- Numeric value of a digit group, ignoring underscores. -/
def groupVal (l : List Char) : Nat :=
  l.foldl (fun n c => if c = '_' then n else n * 10 + (c.toNat - 48)) 0

/-- Model of Python `int(s)` on a string: optional surrounding whitespace,
optional sign, a nonempty digit group.  `none` models a raised `ValueError`. -/
def pyIntParse (s : String) : Option Int :=
  match trimChars s.data with
  | '+' :: rest => if digitGroup rest then some (groupVal rest : Int) else none
  | '-' :: rest => if digitGroup rest then some (-(groupVal rest : Int)) else none
  | rest => if digitGroup rest then some (groupVal rest : Int) else none

/-- Split a character list at the first character satisfying `p`; the second
component is `none` when no such character occurs. -/
def splitAtChar (p : Char → Bool) : List Char → List Char × Option (List Char)
  | [] => ([], none)
  | c :: rest =>
    if p c then ([], some rest)
    else
      let r := splitAtChar p rest
      (c :: r.1, r.2)

/-- Number of digits in a group, underscores excluded. -/
def digitCount (l : List Char) : Nat := (l.filter Char.isDigit).length

/-- Mantissa validity for Python `float()`: `digits`, `digits.`,
`digits.digits`, or `.digits`. -/
def validMantissa (ip : List Char) (fp : Option (List Char)) : Bool :=
  match fp with
  | none => digitGroup ip
  | some f =>
    match ip, f with
    | [], [] => false
    | [], f2 => digitGroup f2
    | i2, [] => digitGroup i2
    | i2, f2 => digitGroup i2 && digitGroup f2

/-- Rational value of Python `float(s)` when `s` parses as a finite decimal;
`none` models a raised `ValueError`.  The non-finite spellings `inf` and `nan`
lie outside the rational model and also map to `none`; they do not occur in
this repository's data or claims. -/
def pyFloatParse (s : String) : Option ℚ :=
  let cs := trimChars s.data
  let signAndBody : Int × List Char :=
    match cs with
    | '+' :: rest => (1, rest)
    | '-' :: rest => (-1, rest)
    | rest => (1, rest)
  let sign := signAndBody.1
  let body := signAndBody.2
  let mantExp := splitAtChar (fun c => c = 'e' || c = 'E') body
  let ipfp := splitAtChar (fun c => c = '.') mantExp.1
  let expVal : Option Int :=
    match mantExp.2 with
    | none => some 0
    | some e =>
      match e with
      | '+' :: d => if digitGroup d then some (groupVal d : Int) else none
      | '-' :: d => if digitGroup d then some (-(groupVal d : Int)) else none
      | d => if digitGroup d then some (groupVal d : Int) else none
  match expVal with
  | none => none
  | some ex =>
    if validMantissa ipfp.1 ipfp.2 then
      let ipv : ℚ := (groupVal ipfp.1 : ℚ)
      let fpv : ℚ :=
        match ipfp.2 with
        | none => 0
        | some f => (groupVal f : ℚ) / ((10 ^ digitCount f : Nat) : ℚ)
      let mant := (sign : ℚ) * (ipv + fpv)
      match ex with
      | Int.ofNat e => some (mant * ((10 ^ e : Nat) : ℚ))
      | Int.negSucc e => some (mant / ((10 ^ (e + 1) : Nat) : ℚ))
    else none

/-- The character list is nonempty and consists of ASCII decimal digits. -/
def digitsOnly (l : List Char) : Bool := !l.isEmpty && l.all Char.isDigit

/-- Gregorian leap year, as Python's `datetime` uses. -/
def isLeap (y : Nat) : Bool := (y % 4 == 0 && y % 100 != 0) || y % 400 == 0

/-- Days in a month, per Python's `datetime.date`. -/
def daysInMonth (y m : Nat) : Nat :=
  if m = 2 then (if isLeap y then 29 else 28)
  else if m = 4 ∨ m = 6 ∨ m = 9 ∨ m = 11 then 30
  else 31

/-- A calendar date as Python's `datetime.date` carries it. -/
structure PyDate where
  year : Nat
  month : Nat
  day : Nat
deriving DecidableEq, Repr

/-- Model of `datetime.strptime(s, "%Y-%m-%d").date()`.  CPython compiles the
format into the regex pieces `\d\d\d\d` for `%Y`, `1[0-2]|0[1-9]|[1-9]` for
`%m` and `3[01]|[12]\d|0[1-9]|[1-9]` for `%d`, separated by literal dashes,
requires the whole string to be consumed, and then constructs a `date`, which
validates the day against the month length and the year against `MINYEAR = 1`.
`none` models a raised `ValueError`. -/
def parseYMD (s : String) : Option PyDate :=
  match splitChar '-' s.data with
  | [y, m, d] =>
    if digitsOnly y = true ∧ y.length = 4
        ∧ digitsOnly m = true ∧ m.length ≤ 2
        ∧ digitsOnly d = true ∧ d.length ≤ 2 then
      let yv := groupVal y
      let mv := groupVal m
      let dv := groupVal d
      if 1 ≤ yv ∧ 1 ≤ mv ∧ mv ≤ 12 ∧ 1 ≤ dv ∧ dv ≤ daysInMonth yv mv then
        some ⟨yv, mv, dv⟩
      else none
    else none
  | _ => none

/-- `to_int` from `app/routers/sales.py`: `int(val)` with every exception
mapped to `0`; `int(None)` raises `TypeError`, hence the `none` branch. -/
def to_int : Option String → Int
  | none => 0
  | some s =>
    match pyIntParse s with
    | some n => n
    | none => 0

/-- `to_float` from `app/routers/sales.py`: `float(val)` with every exception
mapped to `0.0`. -/
def to_float : Option String → ℚ
  | none => 0
  | some s =>
    match pyFloatParse s with
    | some q => q
    | none => 0

/-- `to_str` from `app/routers/sales.py`:
`str(val).strip() if val else ""`. -/
def to_str : Option String → String
  | none => ""
  | some s => if s = "" then "" else pyStrip s

/-- `to_date` from `app/routers/sales.py`: strict `%Y-%m-%d` parse, `None` on
any failure (including the `TypeError` raised on a `None` argument). -/
def to_date : Option String → Option PyDate
  | none => none
  | some s => parseYMD s

/-- Partial model of `dateutil.parser.parse(s).date()` — an external library —
restricted to the slash-separated `M/D/YYYY` spelling with the library's
default month-first reading, which is the shape exercised by
`src/tests/test_casts.py` (`"2/1/2025"`).  Inputs outside this fragment are
not modelled (they map to `none`), and no theorem below relies on the
fallback rejecting an input. -/
def dateutilParseDate (s : String) : Option PyDate :=
  match splitChar '/' s.data with
  | [m, d, y] =>
    if digitsOnly m = true ∧ m.length ≤ 2
        ∧ digitsOnly d = true ∧ d.length ≤ 2
        ∧ digitsOnly y = true ∧ y.length = 4 then
      let mv := groupVal m
      let dv := groupVal d
      let yv := groupVal y
      if 1 ≤ yv ∧ 1 ≤ mv ∧ mv ≤ 12 ∧ 1 ≤ dv ∧ dv ≤ daysInMonth yv mv then
        some ⟨yv, mv, dv⟩
      else none
    else none
  | _ => none

/-- The `to_date` variant from `src/tests/test_casts.py`: falsy input →
`None`; otherwise strict `%Y-%m-%d`; otherwise the lenient `dateutil`
fallback; `None` when both parsers fail. -/
def to_date_test (val : Option String) : Option PyDate :=
  match val with
  | none => none
  | some s =>
    if s = "" then none
    else
      match parseYMD s with
      | some d => some d
      | none => dateutilParseDate s

/-- Exception-free model of Python `int(val)` on a `str | None` value:
`some` the parsed integer, `none` a raised exception. -/
def pyInt (val : Option String) : Option Int := val.bind pyIntParse

/-- Exception-free model of Python `float(val)` on a `str | None` value. -/
def pyFloat (val : Option String) : Option ℚ := val.bind pyFloatParse

/-- A stored sales record (`app/models/sales.py`), as the ingestion route
constructs it: every field already normalized. -/
structure Sale where
  date : Option PyDate
  product_name : String
  quantity : Int
  cost_price : ℚ
  selling_price : ℚ
  payment_method : String
  mpesa_transaction_id : String
deriving DecidableEq, Repr

/-- The seven `required_fields` of `upload_sales`. -/
def requiredFields : List String :=
  ["date", "product_name", "quantity", "cost_price", "selling_price",
   "payment_method", "mpesa_transaction_id"]

/-- Header-cell normalization in `upload_sales`: `h.strip().lower()`. -/
def normCell (h : String) : String := ⟨(trimChars h.data).map Char.toLower⟩

/-- The completion loop of `upload_sales`: `for field in required_fields: if
field not in reader.fieldnames: reader.fieldnames.append(field)`. -/
def completeFields (norm : List String) : List String :=
  requiredFields.foldl (fun acc f => if f ∈ acc then acc else acc ++ [f]) norm

/-- The assignment sequence with which `csv.DictReader.__next__` builds a row
dict: `dict(zip(self.fieldnames, row))`, then `restval` (= `None`) assigned to
each fieldname beyond the row's length.  Extra row values beyond the
fieldnames go under the non-string `restkey` and are unreachable from
`row.get(<column name>)`. -/
def pyZipDict (fields vals : List String) : List (String × Option String) :=
  fields.zip (vals.map some) ++ (fields.drop vals.length).map (fun f => (f, none))

/-- `row.get(key)` on the dict above: the value of the last assignment to
`key`, or `None` when `key` was never assigned. -/
def rawGet (fields vals : List String) (key : String) : Option String :=
  match (pyZipDict fields vals).reverse.find? (fun p => p.1 == key) with
  | some p => p.2
  | none => none

/-- Construction of one `Sale` from a raw CSV row (`upload_sales`). -/
def buildSale (fields : List String) (r : List String) : Sale :=
  { date := to_date (rawGet fields r "date")
    product_name := to_str (rawGet fields r "product_name")
    quantity := to_int (rawGet fields r "quantity")
    cost_price := to_float (rawGet fields r "cost_price")
    selling_price := to_float (rawGet fields r "selling_price")
    payment_method := to_str (rawGet fields r "payment_method")
    mpesa_transaction_id := to_str (rawGet fields r "mpesa_transaction_id") }

/-- An uploaded file: filename plus the CSV records as the `csv` module's
line/quote scanner (an external collaborator) delivers them. -/
structure UploadFile where
  filename : String
  content : List (List String)

/-- A FastAPI `HTTPException`: status code and detail message. -/
structure HTTPErr where
  status : Nat
  detail : String
deriving DecidableEq, Repr

/-- The JSON counters `upload_sales` returns. -/
structure UploadResult where
  inserted : Nat
  total_in_db : Nat
deriving DecidableEq, Repr

/-- The data rows `csv.DictReader` yields: every record after the header,
blank records skipped (the reader's internal `while row == []` loop). -/
def dictRows (rest : List (List String)) : List (List String) :=
  rest.filter (fun r => !r.isEmpty)

/-- `POST /api/upload-sales` (`app/routers/sales.py`), as a function from the
uploaded file and the current `sales` table contents to either an
`HTTPException` or the new table contents plus the response counters.  The
row loop skips a row iff `raw.get("product_name")` is falsy; the analysis /
email tail of the route reads back the whole table, modelled separately by
`compute_analysis` applied to the returned table. -/
def upload_sales (file : UploadFile) (db : List Sale) :
    Except HTTPErr (List Sale × UploadResult) :=
  if !pyEndsWith file.filename ".csv" then
    .error ⟨400, "File must be CSV"⟩
  else
    match file.content with
    | [] => .error ⟨400, "CSV missing header row"⟩
    | header :: rest =>
      let fields := completeFields (header.map normCell)
      let rows_to_insert :=
        ((dictRows rest).filter
            (fun r => truthy (rawGet fields r "product_name"))).map
          (buildSale fields)
      let all_rows := db ++ rows_to_insert
      .ok (all_rows, ⟨rows_to_insert.length, all_rows.length⟩)

/-- The `sales` table contents after a call to the route: unchanged when the
route raises (the transaction never starts). -/
def dbAfter (file : UploadFile) (db : List Sale) : List Sale :=
  match upload_sales file db with
  | .ok (db2, _) => db2
  | .error _ => db

/-- The `summary` numbers accumulated by `compute_analysis`
(`app/routers/sales.py`). -/
structure Summary where
  total_revenue : ℚ
  total_cost : ℚ
  total_profit : ℚ
  transactions : Nat
deriving DecidableEq, Repr

/-- One iteration of the `for r in rows` loop in `compute_analysis`:
`revenue = r.selling_price * r.quantity`, `cost = r.cost_price * r.quantity`,
`profit = revenue - cost`, each added to its running total. -/
def analysisStep (s : Summary) (r : Sale) : Summary :=
  let revenue := r.selling_price * (r.quantity : ℚ)
  let cost := r.cost_price * (r.quantity : ℚ)
  let profit := revenue - cost
  { total_revenue := s.total_revenue + revenue
    total_cost := s.total_cost + cost
    total_profit := s.total_profit + profit
    transactions := s.transactions }

/-- The summary part of `compute_analysis`: totals start at `0.0` and
`transactions` is `len(rows)`, fixed before the loop. -/
def compute_analysis (rows : List Sale) : Summary :=
  rows.foldl analysisStep ⟨0, 0, 0, rows.length⟩

/-- Distinct values in first-appearance order: the grouping keys of a SQL
`GROUP BY` over the table, before the explicit `ORDER BY`. -/
def dedupKeys (l : List String) : List String :=
  l.foldl (fun acc x => if x ∈ acc then acc else acc ++ [x]) []

/-- One output row of the per-product grouped queries
(`app/services/sales_analysis.py`): product name, the query's metric
(revenue or profit), and `SUM(quantity)` as `units_sold`. -/
structure ProductAgg where
  product_name : String
  metric : ℚ
  units_sold : Int
deriving DecidableEq, Repr

/-- Stable descending insertion by a rational measure — the model of
`ORDER BY <metric> DESC` (SQL leaves tie order unspecified; the stable model
keeps the grouping order on ties). -/
def insertDescBy {α : Type} (f : α → ℚ) (x : α) : List α → List α
  | [] => [x]
  | y :: ys => if f y < f x then x :: y :: ys else y :: insertDescBy f x ys

/-- Sort a list descending by a rational measure, stably. -/
def sortDescBy {α : Type} (f : α → ℚ) (l : List α) : List α :=
  l.foldr (insertDescBy f) []

/-- The `GROUP BY product_name` aggregates of `revenue_per_product`:
`SUM(quantity * selling_price)` and `SUM(quantity)`. -/
def groupRevenue (db : List Sale) (p : String) : ProductAgg :=
  { product_name := p
    metric := ((db.filter (fun s => s.product_name == p)).map
        (fun s => (s.quantity : ℚ) * s.selling_price)).sum
    units_sold := ((db.filter (fun s => s.product_name == p)).map
        Sale.quantity).sum }

/-- `revenue_per_product` (`app/services/sales_analysis.py`): grouped by
product name, ordered by revenue descending. -/
def revenue_per_product (db : List Sale) : List ProductAgg :=
  sortDescBy (fun a => a.metric)
    ((dedupKeys (db.map Sale.product_name)).map (groupRevenue db))

/-- The `GROUP BY product_name` aggregates of `profit_per_product`:
`SUM((selling_price - cost_price) * quantity)` and `SUM(quantity)`. -/
def groupProfit (db : List Sale) (p : String) : ProductAgg :=
  { product_name := p
    metric := ((db.filter (fun s => s.product_name == p)).map
        (fun s => (s.selling_price - s.cost_price) * (s.quantity : ℚ))).sum
    units_sold := ((db.filter (fun s => s.product_name == p)).map
        Sale.quantity).sum }

/-- `profit_per_product`: grouped by product name, ordered by profit
descending. -/
def profit_per_product (db : List Sale) : List ProductAgg :=
  sortDescBy (fun a => a.metric)
    ((dedupKeys (db.map Sale.product_name)).map (groupProfit db))

/-- `best_and_most_profitable`: the head of each grouped list (`rev[0] if rev
else {}`), `none` modelling the empty dict. -/
def best_and_most_profitable (db : List Sale) :
    Option ProductAgg × Option ProductAgg :=
  ((revenue_per_product db).head?, (profit_per_product db).head?)

/-- `mpesa_transaction_count`: `COUNT(*)` of rows whose
`mpesa_transaction_id` differs from `""`. -/
def mpesa_transaction_count (db : List Sale) : Nat :=
  (db.filter (fun s => !(s.mpesa_transaction_id == ""))).length

/-- Python `round(x, 2)` under exact arithmetic: scale by 100, round half to
even, scale back. -/
def roundHalfEven (x : ℚ) : Int :=
  let n := x.floor
  let f := x - (n : ℚ)
  if f < mkRat 1 2 then n
  else if mkRat 1 2 < f then n + 1
  else if n % 2 = 0 then n else n + 1

/-- Round to two decimal places, half to even. -/
def round2 (x : ℚ) : ℚ := mkRat (roundHalfEven (x * 100)) 100

/-- The KPI record `compute_summary` returns. -/
structure SummaryKPI where
  total_revenue : ℚ
  total_cost : ℚ
  total_profit : ℚ
  transactions : Nat
  profit_margin_percent : ℚ
deriving DecidableEq, Repr

/-- `compute_summary` (`app/services/sales_analysis.py`) over the list model
of the `sales` table: the SQL `COALESCE(SUM(…), 0)` aggregates become list
sums (which are `0` on the empty table), `COUNT(id)` becomes the length, the
`float(row … or 0)` conversions are identities in the exact model, and
`margin = (profit / revenue * 100) if revenue else 0.0` guards the division
by Python truthiness of `revenue`. -/
def compute_summary (db : List Sale) : SummaryKPI :=
  let revenue := (db.map (fun s => (s.quantity : ℚ) * s.selling_price)).sum
  let cost := (db.map (fun s => (s.quantity : ℚ) * s.cost_price)).sum
  let profit :=
    (db.map (fun s => (s.selling_price - s.cost_price) * (s.quantity : ℚ))).sum
  let margin := if revenue = 0 then 0 else profit / revenue * 100
  { total_revenue := revenue
    total_cost := cost
    total_profit := profit
    transactions := db.length
    profit_margin_percent := round2 margin }

/-- The well-formedness a data row needs in order not to be skipped by the
ingestion loop: non-blank (as `csv.DictReader` requires) and a truthy
`product_name` cell. -/
def wellFormedRow (header : List String) (r : List String) : Prop :=
  r ≠ [] ∧
    truthy (rawGet (completeFields (header.map normCell)) r "product_name") = true

instance (header r : List String) : Decidable (wellFormedRow header r) := by
  unfold wellFormedRow; infer_instance

/-- The `Sale` records a list of raw rows turns into under a given header. -/
def ingestedSales (header : List String) (rs : List (List String)) : List Sale :=
  rs.map (buildSale (completeFields (header.map normCell)))

/-- The header of the spec's §8 scenario CSV: exactly the seven required
columns. -/
def scenarioHeader : List String :=
  ["date", "product_name", "quantity", "cost_price", "selling_price",
   "payment_method", "mpesa_transaction_id"]

/-- The data rows of the spec's §8 scenario: two `Soap` rows, one `cash`
with no reference, one `mpesa` with reference `TX1`. -/
def scenarioRows : List (List String) :=
  [["2025-01-02", "Soap", "2", "10.0", "15.0", "cash", ""],
   ["2025-01-02", "Soap", "1", "10.0", "15.0", "mpesa", "TX1"]]

/-- The spec's §8 scenario upload. -/
def scenarioFile : UploadFile := ⟨"sales.csv", scenarioHeader :: scenarioRows⟩

/-- A data row with a non-blank date and a blank product name. -/
def blankNameRow : List String :=
  ["2025-01-02", "", "1", "10.0", "15.0", "cash", ""]

/-- Upload of the single `blankNameRow`. -/
def blankNameFile : UploadFile := ⟨"sales.csv", [scenarioHeader, blankNameRow]⟩

/-- A data row with a blank date and a non-blank product name. -/
def blankDateRow : List String := ["", "Soap", "1", "10.0", "15.0", "cash", ""]

/-- A data row whose product name consists of a single space. -/
def spaceNameRow : List String :=
  ["2025-01-02", " ", "1", "10.0", "15.0", "cash", ""]

/-- Upload of the single `spaceNameRow`. -/
def spaceNameFile : UploadFile := ⟨"sales.csv", [scenarioHeader, spaceNameRow]⟩

/-- A header that lacks the `mpesa_transaction_id` column (and four others). -/
def shortHeader : List String := ["date", "product_name"]

/-- Upload with `shortHeader` whose single data row carries more cells than
the header has columns, reaching into the appended schema-completion
columns. -/
def longRowFile : UploadFile :=
  ⟨"sales.csv",
    [shortHeader, ["2025-01-02", "Soap", "1", "1", "2", "cash", "TX9"]]⟩

/-- A header that lacks only the `mpesa_transaction_id` column. -/
def noMpesaHeader : List String :=
  ["date", "product_name", "quantity", "cost_price", "selling_price",
   "payment_method"]

/-- Upload with `noMpesaHeader` whose data row matches the header's width. -/
def noMpesaFile : UploadFile :=
  ⟨"sales.csv",
    [noMpesaHeader, ["2025-01-02", "Soap", "2", "10.0", "15.0", "cash"]]⟩

/-- A single stored sale with nonzero revenue, for margin evaluation. -/
def marginSale : Sale := ⟨some ⟨2025, 1, 2⟩, "Soap", 2, 10, 15, "cash", ""⟩


/-! Helper lemmas about the embedded operations. -/

theorem analysis_foldl_transactions (rows : List Sale) (s : Summary) :
    (rows.foldl analysisStep s).transactions = s.transactions := by
  induction rows generalizing s with
  | nil => rfl
  | cons r rest ih => simp [List.foldl_cons, ih, analysisStep]

theorem analysis_foldl_revenue (rows : List Sale) (s : Summary) :
    (rows.foldl analysisStep s).total_revenue =
      s.total_revenue +
        (rows.map (fun r => r.selling_price * (r.quantity : ℚ))).sum := by
  induction rows generalizing s with
  | nil => simp
  | cons r rest ih =>
    simp [List.foldl_cons, ih, analysisStep]
    ring

theorem analysis_foldl_profit (rows : List Sale) (s : Summary)
    (h : s.total_profit = s.total_revenue - s.total_cost) :
    (rows.foldl analysisStep s).total_profit =
      (rows.foldl analysisStep s).total_revenue -
        (rows.foldl analysisStep s).total_cost := by
  induction rows generalizing s with
  | nil => exact h
  | cons r rest ih =>
    refine ih _ ?_
    simp [analysisStep, h]
    ring

theorem rawGet_eq_none_of_values_none (fields vals : List String) (k : String)
    (h : ∀ p ∈ pyZipDict fields vals, p.1 = k → p.2 = none) :
    rawGet fields vals k = none := by
  unfold rawGet
  cases hf : (pyZipDict fields vals).reverse.find? (fun p => p.1 == k) with
  | none => rfl
  | some q =>
    have hq : q ∈ (pyZipDict fields vals).reverse := List.mem_of_find?_eq_some hf
    have hk := List.find?_some hf
    have := h q (List.mem_reverse.mp hq) (by simpa using hk)
    simp [this]

theorem fst_mem_take_of_mem_zip {l1 : List String} {l2 : List (Option String)}
    {p : String × Option String} (h : p ∈ l1.zip l2) :
    p.1 ∈ l1.take l2.length := by
  induction l1 generalizing l2 with
  | nil => simp at h
  | cons x xs ih =>
    cases l2 with
    | nil => simp at h
    | cons y ys =>
      rcases List.mem_cons.mp (by simpa [List.zip_cons_cons] using h) with h1 | h2
      · simp [h1]
      · simpa using Or.inr (ih h2)

theorem foldl_append_extra (fs : List String) :
    ∀ acc, ∃ extra,
      fs.foldl (fun acc f => if f ∈ acc then acc else acc ++ [f]) acc =
        acc ++ extra := by
  induction fs with
  | nil => exact fun acc => ⟨[], by simp⟩
  | cons f rest ih =>
    intro acc
    by_cases hf : f ∈ acc
    · simpa [List.foldl_cons, hf] using ih acc
    · obtain ⟨e, he⟩ := ih (acc ++ [f])
      exact ⟨[f] ++ e, by simp [List.foldl_cons, hf, he]⟩

theorem completeFields_extra (norm : List String) :
    ∃ extra, completeFields norm = norm ++ extra :=
  foldl_append_extra requiredFields norm

theorem rawGet_missing_key (norm extra vals : List String) (k : String)
    (hk : k ∉ norm) (hlen : vals.length ≤ norm.length) :
    rawGet (norm ++ extra) vals k = none := by
  apply rawGet_eq_none_of_values_none
  intro p hp hpk
  unfold pyZipDict at hp
  rcases List.mem_append.mp hp with hz | hd
  · exfalso
    have h1 : p.1 ∈ (norm ++ extra).take ((vals.map some).length) :=
      fst_mem_take_of_mem_zip hz
    rw [List.length_map, List.take_append_of_le_length hlen] at h1
    exact hk (hpk ▸ List.mem_of_mem_take h1)
  · rcases List.mem_map.mp hd with ⟨f, _, hf⟩
    simp [← hf]

theorem truthy_rawGet_nil (fields : List String) (k : String) :
    truthy (rawGet fields [] k) = false := by
  have h0 : rawGet fields [] k = none := by
    apply rawGet_eq_none_of_values_none
    intro p hp _
    unfold pyZipDict at hp
    simp at hp
    rcases hp with ⟨f, _, hf⟩
    simp [← hf]
  simp [h0, truthy]

unseal Rat.mul Rat.sub in
theorem round2_zero : round2 0 = 0 := by decide


/-! Claim theorems. -/

/-- C10: for every list of sale rows, the summary produced by
`compute_analysis` satisfies `total_profit = total_revenue - total_cost`
under exact arithmetic, since each row adds `selling_price * quantity` to
revenue, `cost_price * quantity` to cost, and their difference to profit. -/
theorem profit_eq_revenue_sub_cost (rows : List Sale) :
    (compute_analysis rows).total_profit =
      (compute_analysis rows).total_revenue -
        (compute_analysis rows).total_cost :=
  analysis_foldl_profit rows _ (by simp)

/-- C4: every `str | None` input makes each normalizer return a value of its
fixed target kind (totality is intrinsic to the embedding: the four
functions are total Lean functions into `Int`, `ℚ`, `String` and
`Option PyDate`), and a parse failure — the underlying Python conversion
raising — yields `0` for `to_int`, `0.0` for `to_float`, `""` for `to_str`
(whose only failure mode is a falsy input), and `None` for `to_date`;
a successful parse is returned unchanged. -/
theorem normalizers_total (v : Option String) :
    ((∀ n : Int, pyInt v = some n → to_int v = n)
        ∧ (pyInt v = none → to_int v = 0))
      ∧ ((∀ q : ℚ, pyFloat v = some q → to_float v = q)
        ∧ (pyFloat v = none → to_float v = 0))
      ∧ ((v = none ∨ v = some "") → to_str v = "")
      ∧ ((∀ d : PyDate, v.bind parseYMD = some d → to_date v = some d)
        ∧ (v.bind parseYMD = none → to_date v = none)) := by
  cases v with
  | none =>
    refine ⟨⟨?_, ?_⟩, ⟨?_, ?_⟩, ?_, ⟨?_, ?_⟩⟩ <;>
      simp [pyInt, pyFloat, to_int, to_float, to_str, to_date]
  | some s =>
    refine ⟨⟨?_, ?_⟩, ⟨?_, ?_⟩, ?_, ⟨?_, ?_⟩⟩
    · intro n h
      simp [pyInt] at h
      simp [to_int, h]
    · intro h
      simp [pyInt] at h
      simp [to_int, h]
    · intro q h
      simp [pyFloat] at h
      simp [to_float, h]
    · intro h
      simp [pyFloat] at h
      simp [to_float, h]
    · intro h
      rcases h with h | h
      · exact absurd h (by simp)
      · have : s = "" := by injection h
        simp [to_str, this]
    · intro d h
      simp at h
      simp [to_date, h]
    · intro h
      simp at h
      simp [to_date, h]

/-- Witness for C4 at the concrete failing input `"ten"`. -/
theorem normalizers_total_witness :
    pyInt (some "ten") = none ∧ to_int (some "ten") = 0 :=
  ⟨by decide, (normalizers_total (some "ten")).1.2 (by decide)⟩

/-- C5 (amended): the router's normalizer `to_date` maps `"2025-01-02"` to
January 2, 2025, and maps `""`, `None` and every string the strict
`%Y-%m-%d` parse rejects to an absent value; the test-script variant
`to_date_test` agrees on `"2025-01-02"`, `""` and `None`, but its lenient
`dateutil` fallback can map a string that is not in `YYYY-MM-DD` form to a
date instead of to `None` (see the counterexample). -/
theorem to_date_spec :
    to_date (some "2025-01-02") = some ⟨2025, 1, 2⟩
      ∧ to_date (some "") = none
      ∧ to_date none = none
      ∧ (∀ s : String, parseYMD s = none → to_date (some s) = none)
      ∧ to_date_test (some "2025-01-02") = some ⟨2025, 1, 2⟩
      ∧ to_date_test (some "") = none
      ∧ to_date_test none = none := by
  refine ⟨by decide, by decide, rfl, ?_, by decide, by decide, rfl⟩
  intro s h
  simp [to_date, h]

/-- Counterexample for C5 as stated: `"2/1/2025"` is not parseable as
`YYYY-MM-DD`, yet the `src/tests/test_casts.py` normalizer variant maps it to
February 1, 2025 via the `dateutil` fallback, not to an absent value. -/
theorem to_date_fallback_counterexample :
    parseYMD "2/1/2025" = none
      ∧ to_date_test (some "2/1/2025") = some ⟨2025, 2, 1⟩ := by decide

/-- Witness for C5's universally quantified clause at a concrete
unparseable input. -/
theorem to_date_spec_witness :
    parseYMD "01-02-2025" = none ∧ to_date (some "01-02-2025") = none :=
  ⟨by decide, to_date_spec.2.2.2.1 "01-02-2025" (by decide)⟩

/-- C3: the analysis summary's `profit_margin_percent` equals
`total_profit / total_revenue * 100` rounded (half to even) to 2 decimal
places when `total_revenue` is nonzero, and `0` when `total_revenue` is `0`
(the guard `if revenue` makes the division unreachable then — the embedding
is total, so nothing can raise); with zero stored records `total_revenue`
is `0`, `profit_margin_percent` is `0` and `transactions` is `0`. -/
theorem profit_margin_spec (db : List Sale) :
    ((compute_summary db).total_revenue ≠ 0 →
        (compute_summary db).profit_margin_percent =
          round2 ((compute_summary db).total_profit /
            (compute_summary db).total_revenue * 100))
      ∧ ((compute_summary db).total_revenue = 0 →
          (compute_summary db).profit_margin_percent = 0)
      ∧ (compute_summary []).total_revenue = 0
      ∧ (compute_summary []).profit_margin_percent = 0
      ∧ (compute_summary []).transactions = 0 := by
  refine ⟨?_, ?_, by simp [compute_summary], ?_, by simp [compute_summary]⟩
  · intro h
    simp only [compute_summary] at h ⊢
    rw [if_neg h]
  · intro h
    simp only [compute_summary] at h ⊢
    rw [if_pos h, round2_zero]
  · simp [compute_summary, round2_zero]

unseal Rat.add Rat.sub Rat.mul Rat.inv in
/-- Witness for C3 at a one-row table with nonzero revenue. -/
theorem profit_margin_spec_witness :
    (compute_summary [marginSale]).total_revenue ≠ 0
      ∧ (compute_summary [marginSale]).profit_margin_percent =
          round2 ((compute_summary [marginSale]).total_profit /
            (compute_summary [marginSale]).total_revenue * 100) :=
  ⟨by decide, (profit_margin_spec [marginSale]).1 (by decide)⟩


/-- C1: uploading a CSV of N well-formed rows into an empty store and running
the analysis yields exactly those N rows ingested, a summary whose
`transactions` equals N, and a `total_revenue` equal to the sum over the
ingested rows of `selling_price * quantity`, exactly under exact
arithmetic. -/
theorem upload_roundtrip_revenue (name : String) (header : List String)
    (rs : List (List String))
    (hcsv : pyEndsWith name ".csv" = true)
    (hwf : ∀ r ∈ rs, wellFormedRow header r) :
    upload_sales ⟨name, header :: rs⟩ [] =
        .ok (ingestedSales header rs, ⟨rs.length, rs.length⟩)
      ∧ (compute_analysis (ingestedSales header rs)).transactions = rs.length
      ∧ (compute_analysis (ingestedSales header rs)).total_revenue =
          ((ingestedSales header rs).map
            (fun s => s.selling_price * (s.quantity : ℚ))).sum := by
  have h1 : dictRows rs = rs := by
    apply List.filter_eq_self.mpr
    intro r hr
    simp [List.isEmpty_iff, (hwf r hr).1]
  have h2 : rs.filter
      (fun r => truthy (rawGet (completeFields (header.map normCell)) r
        "product_name")) = rs := by
    apply List.filter_eq_self.mpr
    intro r hr
    exact (hwf r hr).2
  refine ⟨?_, ?_, ?_⟩
  · simp [upload_sales, hcsv, h1, h2, ingestedSales]
  · simp [compute_analysis, analysis_foldl_transactions, ingestedSales]
  · simpa [compute_analysis] using
      analysis_foldl_revenue (ingestedSales header rs)
        ⟨0, 0, 0, (ingestedSales header rs).length⟩

/-- Witness for C1 at the two-row scenario upload. -/
theorem upload_roundtrip_revenue_witness :
    (pyEndsWith "sales.csv" ".csv" = true
      ∧ ∀ r ∈ scenarioRows, wellFormedRow scenarioHeader r)
      ∧ (upload_sales ⟨"sales.csv", scenarioHeader :: scenarioRows⟩ [] =
            .ok (ingestedSales scenarioHeader scenarioRows, ⟨2, 2⟩)
        ∧ (compute_analysis
            (ingestedSales scenarioHeader scenarioRows)).transactions = 2
        ∧ (compute_analysis
            (ingestedSales scenarioHeader scenarioRows)).total_revenue =
          ((ingestedSales scenarioHeader scenarioRows).map
            (fun s => s.selling_price * (s.quantity : ℚ))).sum) :=
  ⟨⟨by decide, by decide⟩,
    upload_roundtrip_revenue "sales.csv" scenarioHeader scenarioRows
      (by decide) (by decide)⟩

/-- C2 (amended): a data row of a single-row upload is ingested exactly when
its `product_name` cell is truthy (non-blank and present), regardless of its
date cell; in particular a row with a blank product name is always skipped,
even when its date is non-blank, and a row with a blank date but non-blank
product name is ingested. -/
theorem row_skip_iff_blank_product (name : String) (header r : List String)
    (hcsv : pyEndsWith name ".csv" = true) :
    upload_sales ⟨name, [header, r]⟩ [] =
        .ok ([buildSale (completeFields (header.map normCell)) r], ⟨1, 1⟩)
      ↔ truthy (rawGet (completeFields (header.map normCell)) r
          "product_name") = true := by
  cases r with
  | nil =>
    have ht := truthy_rawGet_nil (completeFields (header.map normCell))
      "product_name"
    simp [upload_sales, hcsv, dictRows, ht]
  | cons a as =>
    by_cases ht : truthy (rawGet (completeFields (header.map normCell))
        (a :: as) "product_name") = true
    · simp [upload_sales, hcsv, dictRows, ht]
    · have ht2 : truthy (rawGet (completeFields (header.map normCell))
          (a :: as) "product_name") = false := by
        simpa using ht
      simp [upload_sales, hcsv, dictRows, ht2]

/-- Counterexample for C2 as stated: `blankNameRow` has a non-blank date and
a blank product name, so by the claim it should still be ingested; the code
skips it — the upload of that single row inserts nothing. -/
theorem row_skip_date_counterexample :
    truthy (rawGet (completeFields (scenarioHeader.map normCell)) blankNameRow
        "date") = true
      ∧ (upload_sales blankNameFile []).toOption = some ([], ⟨0, 0⟩) := by
  decide

/-- Witness for C2's amended theorem at a row with blank date and non-blank
product name, which is ingested. -/
theorem row_skip_iff_blank_product_witness :
    pyEndsWith "sales.csv" ".csv" = true
      ∧ upload_sales ⟨"sales.csv", [scenarioHeader, blankDateRow]⟩ [] =
          .ok ([buildSale (completeFields (scenarioHeader.map normCell))
            blankDateRow], ⟨1, 1⟩) :=
  ⟨by decide,
    (row_skip_iff_blank_product "sales.csv" scenarioHeader blankDateRow
      (by decide)).mpr (by decide)⟩

unseal Rat.add Rat.sub Rat.mul Rat.inv in
/-- C6: ingesting the spec's two scenario rows into an empty store yields an
analysis summary with revenue 45, cost 30, profit 15 and 2 transactions, the
best-selling and most-profitable product both `"Soap"`, and an mpesa
reference count of 1. -/
theorem scenario_analysis :
    (upload_sales scenarioFile []).toOption.map
        (fun p => compute_analysis p.1) = some ⟨45, 30, 15, 2⟩
      ∧ (upload_sales scenarioFile []).toOption.map
          (fun p =>
            ((best_and_most_profitable p.1).1.map ProductAgg.product_name,
             (best_and_most_profitable p.1).2.map ProductAgg.product_name,
             mpesa_transaction_count p.1)) =
        some (some "Soap", some "Soap", 1) := by decide

/-- C7 (amended): uploading a CSV whose header lacks the
`mpesa_transaction_id` column succeeds, and every ingested row whose cell
count does not exceed the header's column count has an empty external
transaction reference — the appended column is null for such rows and
normalizes to `""`.  (The cell-count proviso is forced by the
counterexample: a row longer than the header feeds the appended columns.) -/
theorem missing_mpesa_column_blank (name : String) (header : List String)
    (rs : List (List String))
    (hcsv : pyEndsWith name ".csv" = true)
    (hm : "mpesa_transaction_id" ∉ header.map normCell)
    (hlen : ∀ r ∈ rs, r.length ≤ header.length) :
    ((upload_sales ⟨name, header :: rs⟩ []).toOption).isSome = true
      ∧ ∀ s ∈ dbAfter ⟨name, header :: rs⟩ [],
          s.mpesa_transaction_id = "" := by
  obtain ⟨extra, hex⟩ := completeFields_extra (header.map normCell)
  constructor
  · simp [upload_sales, hcsv, Except.toOption]
  · intro s hs
    simp only [dbAfter, upload_sales, hcsv, Bool.not_true, Bool.false_eq_true,
      if_false, List.nil_append] at hs
    rcases List.mem_map.mp hs with ⟨r, hr, rfl⟩
    have hrs : r ∈ rs := by
      have h1 := (List.mem_filter.mp hr).1
      exact (List.mem_filter.mp h1).1
    have hrlen : r.length ≤ (header.map normCell).length := by
      rw [List.length_map]
      exact hlen r hrs
    have hnone : rawGet (completeFields (header.map normCell)) r
        "mpesa_transaction_id" = none := by
      rw [hex]
      exact rawGet_missing_key _ extra r _ hm hrlen
    simp [buildSale, hnone, to_str]

/-- Witness for C7 at a header missing only `mpesa_transaction_id`, with a
row matching the header's width. -/
theorem missing_mpesa_column_blank_witness :
    ("mpesa_transaction_id" ∉ noMpesaHeader.map normCell
      ∧ ∀ r ∈ [["2025-01-02", "Soap", "2", "10.0", "15.0", "cash"]],
          List.length r ≤ noMpesaHeader.length)
      ∧ ((upload_sales noMpesaFile []).toOption).isSome = true
      ∧ ∀ s ∈ dbAfter noMpesaFile [], s.mpesa_transaction_id = "" :=
  ⟨⟨by decide, by decide⟩,
    missing_mpesa_column_blank "sales.csv" noMpesaHeader
      [["2025-01-02", "Soap", "2", "10.0", "15.0", "cash"]]
      (by decide) (by decide) (by decide)⟩

unseal Rat.add Rat.sub Rat.mul Rat.inv in
/-- Counterexample for C7 as stated: `longRowFile`'s header lacks the
`mpesa_transaction_id` column, yet its (successfully ingested) row has
reference `"TX9"`, because the row carries more cells than the header has
columns and `csv.DictReader` zips row cells against the completed field
list. -/
theorem schema_completion_counterexample :
    "mpesa_transaction_id" ∉ shortHeader.map normCell
      ∧ (upload_sales longRowFile []).toOption.map
          (fun p => p.1.map Sale.mpesa_transaction_id) = some ["TX9"] := by
  decide

/-- C8: the upload rejects a filename not ending in `.csv` with a 400 error,
rejects a file with no readable header row (no CSV records at all) with a
400 error, and in both cases the stored table is unchanged — nothing is
inserted. -/
theorem upload_rejects_bad_input (f : UploadFile) (db : List Sale) :
    (pyEndsWith f.filename ".csv" = false →
        upload_sales f db = .error ⟨400, "File must be CSV"⟩
          ∧ dbAfter f db = db)
      ∧ (pyEndsWith f.filename ".csv" = true → f.content = [] →
        upload_sales f db = .error ⟨400, "CSV missing header row"⟩
          ∧ dbAfter f db = db) := by
  constructor
  · intro h
    have h1 : upload_sales f db = .error ⟨400, "File must be CSV"⟩ := by
      simp [upload_sales, h]
    exact ⟨h1, by simp [dbAfter, h1]⟩
  · intro h hc
    have h1 : upload_sales f db = .error ⟨400, "CSV missing header row"⟩ := by
      simp [upload_sales, h, hc]
    exact ⟨h1, by simp [dbAfter, h1]⟩

/-- Witness for C8 at a `.txt` filename and at an empty `.csv` file. -/
theorem upload_rejects_bad_input_witness :
    (pyEndsWith "sales.txt" ".csv" = false
      ∧ upload_sales ⟨"sales.txt", []⟩ [] =
          .error ⟨400, "File must be CSV"⟩)
      ∧ (pyEndsWith "empty.csv" ".csv" = true
      ∧ upload_sales ⟨"empty.csv", []⟩ [] =
          .error ⟨400, "CSV missing header row"⟩) :=
  ⟨⟨by decide,
      ((upload_rejects_bad_input ⟨"sales.txt", []⟩ []).1 (by decide)).1⟩,
    ⟨by decide,
      ((upload_rejects_bad_input ⟨"empty.csv", []⟩ []).2 (by decide) rfl).1⟩⟩

unseal Rat.add Rat.sub Rat.mul Rat.inv in
/-- C9: a data row whose product name is a single space is not skipped (the
filter tests the raw, untrimmed cell, and `" "` is truthy), yet the stored
record's `product_name` is `""` after trimming — an inserted `Sale` with an
empty product name. -/
theorem whitespace_product_name_inserted :
    truthy (rawGet (completeFields (scenarioHeader.map normCell)) spaceNameRow
        "product_name") = true
      ∧ (upload_sales spaceNameFile []).toOption.map
          (fun p => (p.1.map Sale.product_name, p.2.inserted)) =
        some ([""], 1) := by decide

end SmartDashboard
